import Mathlib

/-!
Shallow embedding of the deterministic scoring pipeline of the Quantara
backend (risk engine, signal engine, recommendation engine), together with
theorems settling the specification claims about it.

Modelling conventions: the real arithmetic of the source is embedded in the
rationals; Python dicts with string keys become association lists; optional
arguments become Option; the wall clock read by the signal detectors when no
timestamp is supplied becomes an explicit integer parameter; decimal string
formatting inside explanation templates is abstracted by toString.
-/

namespace Quantara

/-- The clamp min(max(x, 0), 100) used throughout the source. -/
def clamp100 (x : ℚ) : ℚ := min (max x 0) 100

/-- Dict lookup with default, the embedding of Python dict.get(k, d). -/
def lookupD (m : List (String × ℚ)) (k : String) (d : ℚ) : ℚ :=
  (m.lookup k).getD d

namespace RiskEngine

/-- Risk level classifications (risk_engine.RiskLevel). -/
inductive RiskLevel where
  | Conservative
  | Moderate
  | Aggressive
deriving DecidableEq

/-- The .value string of the Python enum member. -/
def RiskLevel.value : RiskLevel → String
  | .Conservative => "Conservative"
  | .Moderate => "Moderate"
  | .Aggressive => "Aggressive"

/-- Individual risk component scores (risk_engine.RiskComponents). -/
structure RiskComponents where
  volatility_score : ℚ
  beta_score : ℚ
  leverage_score : ℚ
  earnings_stability_score : ℚ
  sector_risk_score : ℚ
  valuation_risk_score : ℚ
deriving DecidableEq

/-- Complete risk analysis result (risk_engine.RiskAnalysis). -/
structure RiskAnalysis where
  ticker : String
  overall_risk_score : ℚ
  risk_level : RiskLevel
  components : RiskComponents
  risk_band : String
  explanation : String

/-- RiskEngine.WEIGHTS. -/
def WEIGHTS : List (String × ℚ) :=
  [("volatility", 0.20), ("beta", 0.15), ("leverage", 0.20),
   ("earnings_stability", 0.15), ("sector", 0.10), ("valuation", 0.20)]

/-- RiskEngine.CONSERVATIVE_THRESHOLD. -/
def CONSERVATIVE_THRESHOLD : ℚ := 33.33

/-- RiskEngine.MODERATE_THRESHOLD. -/
def MODERATE_THRESHOLD : ℚ := 66.67

/-- RiskEngine.SECTOR_RISK_MAP. -/
def SECTOR_RISK_MAP : List (String × ℚ) :=
  [("Technology", 65), ("Healthcare", 55), ("Financials", 60),
   ("Energy", 70), ("Utilities", 30), ("Consumer Staples", 35),
   ("Consumer Discretionary", 55), ("Industrials", 50), ("Materials", 60),
   ("Real Estate", 50), ("Communication Services", 55)]

/-- RiskEngine.calculate_volatility_score. -/
def calculate_volatility_score (historical_volatility : ℚ)
    (volatility_percentile : Option ℚ) : ℚ :=
  let vol_pct := historical_volatility * 100
  let base_score := min (vol_pct * 2) 100
  let base_score :=
    match volatility_percentile with
    | none => base_score
    | some p => base_score * 0.6 + p * 0.4
  clamp100 base_score

/-- RiskEngine.calculate_beta_score. -/
def calculate_beta_score (beta : ℚ) : ℚ :=
  if beta < 0 then
    max 0 (50 + beta * 25)
  else
    clamp100 (beta * 50)

/-- RiskEngine.calculate_leverage_score. -/
def calculate_leverage_score (debt_to_equity : ℚ)
    (interest_coverage : Option ℚ) : ℚ :=
  let de_score := min (debt_to_equity / 3 * 100) 100
  let de_score :=
    match interest_coverage with
    | none => de_score
    | some cov =>
      let coverage_penalty : ℚ :=
        if cov < 1.5 then 30
        else if cov < 3 then 15
        else if cov < 5 then 5
        else 0
      min (de_score + coverage_penalty) 100
  clamp100 de_score

/-- RiskEngine.calculate_earnings_stability_score. -/
def calculate_earnings_stability_score (earnings_volatility : ℚ)
    (consecutive_profitable_quarters : ℤ) : ℚ :=
  let volatility_score := min (earnings_volatility * 100) 100
  let stability_bonus : ℚ :=
    if consecutive_profitable_quarters ≥ 12 then -30
    else if consecutive_profitable_quarters ≥ 8 then -20
    else if consecutive_profitable_quarters ≥ 4 then -10
    else 20
  clamp100 (volatility_score + stability_bonus)

/-- RiskEngine.calculate_sector_risk_score. -/
def calculate_sector_risk_score (sector : String) : ℚ :=
  lookupD SECTOR_RISK_MAP sector 50

/-- One guarded append of calculate_valuation_risk_score: the block
`if ratio is not None and ratio > 0: scores.append(min(ratio / divisor * 100, 100))`
as the list it contributes. -/
def optValuationScore (divisor : ℚ) (o : Option ℚ) : List ℚ :=
  match o with
  | some r => if r > 0 then [min (r / divisor * 100) 100] else []
  | none => []

/-- RiskEngine.calculate_valuation_risk_score.  A ratio contributes only when
it is supplied and strictly positive, exactly as the source guards. -/
def calculate_valuation_risk_score (pe pb ps : Option ℚ) : ℚ :=
  let scores : List ℚ :=
    optValuationScore 50 pe ++ optValuationScore 8 pb ++ optValuationScore 8 ps
  if scores = [] then 50 else scores.sum / (scores.length : ℚ)

/-- RiskEngine.calculate_overall_risk. -/
def calculate_overall_risk (components : RiskComponents) : ℚ :=
  clamp100
    (lookupD WEIGHTS "volatility" 0 * components.volatility_score +
     lookupD WEIGHTS "beta" 0 * components.beta_score +
     lookupD WEIGHTS "leverage" 0 * components.leverage_score +
     lookupD WEIGHTS "earnings_stability" 0 * components.earnings_stability_score +
     lookupD WEIGHTS "sector" 0 * components.sector_risk_score +
     lookupD WEIGHTS "valuation" 0 * components.valuation_risk_score)

/-- RiskEngine.classify_risk_level. -/
def classify_risk_level (risk_score : ℚ) : RiskLevel :=
  if risk_score ≤ CONSERVATIVE_THRESHOLD then .Conservative
  else if risk_score ≤ MODERATE_THRESHOLD then .Moderate
  else .Aggressive

/-- RiskEngine.get_risk_band. -/
def get_risk_band (risk_score : ℚ) : String :=
  if risk_score ≤ CONSERVATIVE_THRESHOLD then "0-33"
  else if risk_score ≤ MODERATE_THRESHOLD then "34-66"
  else "67-100"

/-- Stable descending insertion on (name, score) pairs, the embedding of the
stable Python sorted(..., key=value, reverse=True) in generate_explanation. -/
def insertPairDesc (p : String × ℚ) : List (String × ℚ) → List (String × ℚ)
  | [] => [p]
  | q :: qs => if q.2 ≤ p.2 then p :: q :: qs else q :: insertPairDesc p qs

/-- Stable descending sort on (name, score) pairs by score. -/
def sortPairsDesc : List (String × ℚ) → List (String × ℚ)
  | [] => []
  | p :: ps => insertPairDesc p (sortPairsDesc ps)

/-- RiskEngine.generate_explanation (decimal formatting abstracted). -/
def generate_explanation (ticker : String) (risk_score : ℚ)
    (risk_level : RiskLevel) (components : RiskComponents) : String :=
  let component_scores : List (String × ℚ) :=
    [("Volatility", components.volatility_score),
     ("Beta", components.beta_score),
     ("Leverage", components.leverage_score),
     ("Earnings Stability", components.earnings_stability_score),
     ("Sector", components.sector_risk_score),
     ("Valuation", components.valuation_risk_score)]
  let sorted_components := sortPairsDesc component_scores
  let top1 := sorted_components.headD ("", 0)
  let top2 := (sorted_components.drop 1).headD ("", 0)
  ticker ++ " has an overall risk score of " ++ toString risk_score ++
    ", classified as " ++ risk_level.value ++
    ". Primary risk factors are " ++ top1.1 ++ " (" ++ toString top1.2 ++
    ") and " ++ top2.1 ++ " (" ++ toString top2.2 ++ ")."

/-- RiskEngine.analyze_stock_risk. -/
def analyze_stock_risk (ticker : String) (historical_volatility : ℚ)
    (beta : ℚ) (debt_to_equity : ℚ) (earnings_volatility : ℚ)
    (consecutive_profitable_quarters : ℤ) (sector : String)
    (volatility_percentile : Option ℚ) (interest_coverage : Option ℚ)
    (pe pb ps : Option ℚ) : RiskAnalysis :=
  let components : RiskComponents :=
    { volatility_score :=
        calculate_volatility_score historical_volatility volatility_percentile
      beta_score := calculate_beta_score beta
      leverage_score := calculate_leverage_score debt_to_equity interest_coverage
      earnings_stability_score :=
        calculate_earnings_stability_score earnings_volatility
          consecutive_profitable_quarters
      sector_risk_score := calculate_sector_risk_score sector
      valuation_risk_score := calculate_valuation_risk_score pe pb ps }
  let overall_risk := calculate_overall_risk components
  { ticker := ticker
    overall_risk_score := overall_risk
    risk_level := classify_risk_level overall_risk
    components := components
    risk_band := get_risk_band overall_risk
    explanation :=
      generate_explanation ticker overall_risk (classify_risk_level overall_risk)
        components }

end RiskEngine

namespace SignalEngine

/-- Types of market signals (signal_engine.SignalType). -/
inductive SignalType where
  | EARNINGS_SURPRISE
  | INSTITUTIONAL_BUYING
  | INSIDER_BUYING
  | SENTIMENT_SPIKE
deriving DecidableEq

/-- Market signal data structure (signal_engine.Signal).  Timestamps are
embedded as integers; the metadata dict holds only numeric values here. -/
structure Signal where
  ticker : String
  signal_type : SignalType
  strength : ℚ
  confidence : ℚ
  timestamp : ℤ
  metadata : List (String × ℚ)
deriving DecidableEq

/-- SignalEngine.detect_earnings_surprise.  The `now` parameter embeds the
wall clock read by `timestamp or datetime.utcnow()` in the source. -/
def detect_earnings_surprise (ticker : String) (actual_eps estimated_eps : ℚ)
    (timestamp : Option ℤ) (now : ℤ) : Option Signal :=
  if estimated_eps = 0 then none
  else
    let surprise_pct := (actual_eps - estimated_eps) / |estimated_eps| * 100
    if |surprise_pct| < 5 then none
    else
      some
        { ticker := ticker
          signal_type := .EARNINGS_SURPRISE
          strength := min (|surprise_pct| * 2) 100
          confidence := 95
          timestamp := timestamp.getD now
          metadata :=
            [("actual_eps", actual_eps), ("estimated_eps", estimated_eps),
             ("surprise_pct", surprise_pct)] }

/-- SignalEngine.detect_institutional_buying. -/
def detect_institutional_buying (ticker : String)
    (institutional_ownership_change : ℚ) (num_institutions_buying : ℤ)
    (timestamp : Option ℤ) (now : ℤ) : Option Signal :=
  if institutional_ownership_change < 2 ∨ num_institutions_buying < 3 then none
  else
    let ownership_component := min (institutional_ownership_change * 10) 50
    let institution_component := min ((num_institutions_buying : ℚ) * 5) 50
    some
      { ticker := ticker
        signal_type := .INSTITUTIONAL_BUYING
        strength := ownership_component + institution_component
        confidence := min (60 + (num_institutions_buying : ℚ) * 5) 95
        timestamp := timestamp.getD now
        metadata :=
          [("ownership_change_pct", institutional_ownership_change),
           ("num_institutions", (num_institutions_buying : ℚ))] }

/-- SignalEngine.detect_insider_buying. -/
def detect_insider_buying (ticker : String)
    (insider_buy_volume insider_sell_volume : ℚ) (num_insiders_buying : ℤ)
    (timestamp : Option ℤ) (now : ℤ) : Option Signal :=
  let net_buying := insider_buy_volume - insider_sell_volume
  if net_buying ≤ 0 ∨ num_insiders_buying < 2 then none
  else
    let bsr : ℚ :=
      if insider_sell_volume > 0 then insider_buy_volume / insider_sell_volume
      else 10
    let ratio_component := min (bsr * 20) 60
    let insider_component := min ((num_insiders_buying : ℚ) * 10) 40
    some
      { ticker := ticker
        signal_type := .INSIDER_BUYING
        strength := ratio_component + insider_component
        confidence := 75
        timestamp := timestamp.getD now
        metadata :=
          [("buy_volume", insider_buy_volume),
           ("sell_volume", insider_sell_volume),
           ("net_buying", net_buying),
           ("num_insiders", (num_insiders_buying : ℚ)),
           ("buy_sell_rat", bsr)] }

/-- SignalEngine.detect_sentiment_spike. -/
def detect_sentiment_spike (ticker : String)
    (current_sentiment baseline_sentiment : ℚ) (mention_volume : ℤ)
    (timestamp : Option ℤ) (now : ℤ) : Option Signal :=
  let sentiment_change := current_sentiment - baseline_sentiment
  if |sentiment_change| < 0.2 ∨ mention_volume < 100 then none
  else
    let sentiment_component := min (|sentiment_change| * 100) 70
    let volume_component := min ((mention_volume : ℚ) / 100) 30
    some
      { ticker := ticker
        signal_type := .SENTIMENT_SPIKE
        strength := sentiment_component + volume_component
        confidence := 60
        timestamp := timestamp.getD now
        metadata :=
          [("current_sentiment", current_sentiment),
           ("baseline_sentiment", baseline_sentiment),
           ("sentiment_change", sentiment_change),
           ("mention_volume", (mention_volume : ℚ))] }

/-- SignalEngine.aggregate_signals. -/
def aggregate_signals (signals : List Signal) (ticker : String) : ℚ :=
  if signals = [] then 50
  else
    let weighted_sum := (signals.map (fun s => s.strength * (s.confidence / 100))).sum
    let weight_total := (signals.map (fun s => s.confidence / 100)).sum
    if weight_total = 0 then 50
    else clamp100 (weighted_sum / weight_total)

end SignalEngine

namespace RecommendationEngine

/-- Individual recommendation score components
(recommendation_engine.RecommendationScore). -/
structure RecommendationScore where
  research_score : ℚ
  signal_score : ℚ
  risk_alignment_score : ℚ
  macro_fit_score : ℚ
  final_score : ℚ
deriving DecidableEq

/-- The reasoning_metadata dict attached to each recommendation. -/
structure ReasoningMetadata where
  research_score : ℚ
  signal_score : ℚ
  risk_alignment_score : ℚ
  macro_fit_score : ℚ
  user_risk_level : String
  stock_sector : Option String
deriving DecidableEq

/-- Complete stock recommendation (recommendation_engine.StockRecommendation). -/
structure StockRecommendation where
  ticker : String
  scores : RecommendationScore
  explanation : String
  reasoning_metadata : ReasoningMetadata
  rank : ℕ
deriving DecidableEq

/-- One candidate stock dict fed to the recommendation engine.  Fields read
through dict.get with a default are embedded as Option. -/
structure StockData where
  ticker : String
  sector : Option String
  risk_score : Option ℚ
  research_score : Option ℚ
  signal_score : Option ℚ
deriving DecidableEq

/-- RecommendationEngine.WEIGHTS. -/
def WEIGHTS : List (String × ℚ) :=
  [("research", 0.4), ("signal", 0.3), ("risk_alignment", 0.2),
   ("macro_fit", 0.1)]

/-- The risk_bands dict shared by calculate_risk_alignment_score and
filter_by_risk_band, with its dict.get default band (0, 100). -/
def risk_bands : List (String × (ℚ × ℚ)) :=
  [("Conservative", (0, 33)), ("Moderate", (34, 66)), ("Aggressive", (67, 100))]

/-- Band lookup `risk_bands.get(user_risk_level, (0, 100))`. -/
def bandFor (user_risk_level : String) : ℚ × ℚ :=
  (risk_bands.lookup user_risk_level).getD (0, 100)

/-- RecommendationEngine.calculate_risk_alignment_score. -/
def calculate_risk_alignment_score (stock_risk_score : ℚ)
    (user_risk_level : String) (user_volatility_tolerance : ℚ) : ℚ :=
  let band := bandFor user_risk_level
  let min_risk := band.1
  let max_risk := band.2
  let base_score : ℚ :=
    if min_risk ≤ stock_risk_score ∧ stock_risk_score ≤ max_risk then 100
    else
      let distance :=
        if stock_risk_score < min_risk then min_risk - stock_risk_score
        else stock_risk_score - max_risk
      max 0 (100 - distance * 2)
  let volatility_factor := user_volatility_tolerance / 100
  let adjusted_score := base_score * (0.7 + volatility_factor * 0.3)
  clamp100 adjusted_score

/-- The "bull" table of RecommendationEngine.calculate_macro_fit_score. -/
def bull_sector_scores : List (String × ℚ) :=
  [("Technology", 80), ("Consumer Discretionary", 75), ("Financials", 70),
   ("Industrials", 65), ("Energy", 60), ("Materials", 60), ("Healthcare", 55),
   ("Consumer Staples", 50), ("Utilities", 45), ("Real Estate", 50)]

/-- The "bear" table of RecommendationEngine.calculate_macro_fit_score. -/
def bear_sector_scores : List (String × ℚ) :=
  [("Utilities", 80), ("Consumer Staples", 75), ("Healthcare", 70),
   ("Real Estate", 60), ("Financials", 50), ("Industrials", 45),
   ("Materials", 45), ("Energy", 50), ("Technology", 40),
   ("Consumer Discretionary", 35)]

/-- The "neutral" table: every listed sector maps to 50. -/
def neutral_sector_scores : List (String × ℚ) :=
  [("Technology", 50), ("Healthcare", 50), ("Financials", 50), ("Energy", 50),
   ("Utilities", 50), ("Consumer Staples", 50), ("Consumer Discretionary", 50),
   ("Industrials", 50), ("Materials", 50), ("Real Estate", 50)]

/-- The outer sector_scores dict keyed by market regime. -/
def sector_scores_by_regime : List (String × List (String × ℚ)) :=
  [("bull", bull_sector_scores), ("bear", bear_sector_scores),
   ("neutral", neutral_sector_scores)]

/-- RecommendationEngine.calculate_macro_fit_score; an unknown regime falls
back to the neutral table, an unknown sector to 50. -/
def calculate_macro_fit_score (sector : String)
    (current_market_regime : String) : ℚ :=
  let regime_scores :=
    (sector_scores_by_regime.lookup current_market_regime).getD
      neutral_sector_scores
  lookupD regime_scores sector 50

/-- RecommendationEngine.calculate_final_score. -/
def calculate_final_score (research_score signal_score risk_alignment_score
    macro_fit_score : ℚ) : ℚ :=
  clamp100
    (lookupD WEIGHTS "research" 0 * research_score +
     lookupD WEIGHTS "signal" 0 * signal_score +
     lookupD WEIGHTS "risk_alignment" 0 * risk_alignment_score +
     lookupD WEIGHTS "macro_fit" 0 * macro_fit_score)

/-- RecommendationEngine.generate_explanation (decimal formatting
abstracted). -/
def generate_explanation (ticker : String) (scores : RecommendationScore)
    (sector : String) (user_risk_level : String) : String :=
  ticker ++ " is recommended with a score of " ++ toString scores.final_score ++
    "/100. This recommendation is based on strong research quality (" ++
    toString scores.research_score ++ "), positive market signals (" ++
    toString scores.signal_score ++ "), good alignment with your " ++
    user_risk_level ++ " risk profile (" ++
    toString scores.risk_alignment_score ++
    "), and favorable macro conditions for " ++ sector ++ " (" ++
    toString scores.macro_fit_score ++ ")."

/-- RecommendationEngine.filter_by_risk_band. -/
def filter_by_risk_band (stocks : List StockData)
    (user_risk_level : String) : List StockData :=
  let band := bandFor user_risk_level
  stocks.filter (fun stock =>
    decide (band.1 ≤ stock.risk_score.getD 50 ∧
      stock.risk_score.getD 50 ≤ band.2))

/-- The body of the per-stock loop of rank_recommendations: build one
StockRecommendation (rank still 0) from a candidate dict. -/
def buildRecommendation (user_risk_level : String)
    (user_volatility_tolerance : ℚ) (stock : StockData) : StockRecommendation :=
  let risk_alignment :=
    calculate_risk_alignment_score (stock.risk_score.getD 50) user_risk_level
      user_volatility_tolerance
  let macro_fit := calculate_macro_fit_score (stock.sector.getD "Unknown") "neutral"
  let final_score :=
    calculate_final_score (stock.research_score.getD 50)
      (stock.signal_score.getD 50) risk_alignment macro_fit
  let scores : RecommendationScore :=
    { research_score := stock.research_score.getD 50
      signal_score := stock.signal_score.getD 50
      risk_alignment_score := risk_alignment
      macro_fit_score := macro_fit
      final_score := final_score }
  { ticker := stock.ticker
    scores := scores
    explanation :=
      generate_explanation stock.ticker scores (stock.sector.getD "Unknown")
        user_risk_level
    reasoning_metadata :=
      { research_score := scores.research_score
        signal_score := scores.signal_score
        risk_alignment_score := scores.risk_alignment_score
        macro_fit_score := scores.macro_fit_score
        user_risk_level := user_risk_level
        stock_sector := stock.sector }
    rank := 0 }

/-- Stable descending insertion by final score: the new element goes before
the first already-placed element whose final score is less than or equal to
its own. -/
def insertByScore (r : StockRecommendation) :
    List StockRecommendation → List StockRecommendation
  | [] => [r]
  | x :: xs =>
    if x.scores.final_score ≤ r.scores.final_score then r :: x :: xs
    else x :: insertByScore r xs

/-- Stable descending sort by final score, the embedding of the stable
Python list.sort(key=final_score, reverse=True). -/
def sortByScoreDesc : List StockRecommendation → List StockRecommendation
  | [] => []
  | r :: rs => insertByScore r (sortByScoreDesc rs)

/-- The rank-assignment loop `for i, rec in enumerate(recs[:top_n], 1)`. -/
def assignRanks (i : ℕ) :
    List StockRecommendation → List StockRecommendation
  | [] => []
  | r :: rs => { r with rank := i } :: assignRanks (i + 1) rs

/-- RecommendationEngine.rank_recommendations. -/
def rank_recommendations (stocks : List StockData) (user_risk_level : String)
    (user_volatility_tolerance : ℚ) (top_n : ℕ) : List StockRecommendation :=
  assignRanks 1
    ((sortByScoreDesc
        (stocks.map (buildRecommendation user_risk_level
          user_volatility_tolerance))).take top_n)

end RecommendationEngine

/-! Verification-side definitions used to state the claims. -/

namespace SignalEngine

/-- Both scores of an emitted signal lie in [0, 100]; vacuous when no signal
is emitted. -/
def signalInRange (o : Option Signal) : Prop :=
  o.elim True fun s =>
    (0 ≤ s.strength ∧ s.strength ≤ 100) ∧ (0 ≤ s.confidence ∧ s.confidence ≤ 100)

/-- Forget the timestamp of a signal (for stating clock-independence of the
remaining fields). -/
def stripTime (s : Signal) : Signal := { s with timestamp := 0 }

/-- A concrete signal with strength 80 and confidence 50, used to evaluate
the aggregation theorems. -/
def sampleSignal : Signal :=
  { ticker := "A", signal_type := .SENTIMENT_SPIKE, strength := 80,
    confidence := 50, timestamp := 0, metadata := [] }

end SignalEngine

namespace RiskEngine

/-- The spec claim reading of one valuation block: every supplied ratio
contributes, with no positivity guard.  Stated only to be compared with
optValuationScore, which is translated from the source. -/
def optValuationScoreClaim (divisor : ℚ) (o : Option ℚ) : List ℚ :=
  match o with
  | some r => [min (r / divisor * 100) 100]
  | none => []

/-- The valuation score as claim C8 words it: the average of the
scaled-and-clamped scores of exactly the supplied ratios, 50 when none is
supplied.  Stated only to be compared with calculate_valuation_risk_score. -/
def valuation_risk_score_claim (pe pb ps : Option ℚ) : ℚ :=
  let scores : List ℚ :=
    optValuationScoreClaim 50 pe ++ optValuationScoreClaim 8 pb ++
      optValuationScoreClaim 8 ps
  if scores = [] then 50 else scores.sum / (scores.length : ℚ)

/-- The band string belonging to each risk level, pairing the branches of
classify_risk_level with those of get_risk_band. -/
def bandOfLevel : RiskLevel → String
  | .Conservative => "0-33"
  | .Moderate => "34-66"
  | .Aggressive => "67-100"

/-- The scaled-and-clamped scores of exactly the supplied positive ratios,
in source order: the amended reading of claim C8. -/
def suppliedPositiveScores (pe pb ps : Option ℚ) : List ℚ :=
  ([(pe, (50 : ℚ)), (pb, 8), (ps, 8)].filter
      (fun x => decide (0 < x.1.getD 0))).map
    (fun x => min (x.1.getD 0 / x.2 * 100) 100)

end RiskEngine

namespace RecommendationEngine

/-- The descending order on recommendations used by the ranking sort: a
precedes b when the final score of b is at most that of a. -/
def byFinalDesc (a b : StockRecommendation) : Prop :=
  b.scores.final_score ≤ a.scores.final_score

/-- Candidate with final score 90 under an unrecognized risk level and full
volatility tolerance: 0.4 * 87.5 + 0.3 * 100 + 0.2 * 100 + 0.1 * 50 = 90. -/
def exampleStockA : StockData :=
  { ticker := "A", sector := none, risk_score := none,
    research_score := some (175 / 2), signal_score := some 100 }

/-- Candidate with final score 70: 0.4 * 75 + 0.3 * 50 + 0.2 * 100 + 0.1 * 50. -/
def exampleStockB : StockData :=
  { ticker := "B", sector := none, risk_score := none,
    research_score := some 75, signal_score := some 50 }

/-- Candidate with final score 95: 0.4 * 100 + 0.3 * 100 + 0.2 * 100 + 0.1 * 50. -/
def exampleStockC : StockData :=
  { ticker := "C", sector := none, risk_score := none,
    research_score := some 100, signal_score := some 100 }

/-- A candidate whose risk score 150 lies outside [0, 100]. -/
def overStock : StockData :=
  { ticker := "X", sector := none, risk_score := some 150,
    research_score := none, signal_score := none }

/-- A candidate whose risk score 50 lies inside [0, 100]. -/
def midStock : StockData :=
  { ticker := "Y", sector := none, risk_score := some 50,
    research_score := none, signal_score := none }

/-- A candidate whose risk score 33.5 falls in the uncovered gap between the
Conservative and Moderate filter bands. -/
def gapStock : StockData :=
  { ticker := "G", sector := none, risk_score := some 33.5,
    research_score := none, signal_score := none }

end RecommendationEngine

/-! Helper lemmas. -/

theorem clamp100_bounds (x : ℚ) : 0 ≤ clamp100 x ∧ clamp100 x ≤ 100 :=
  ⟨le_min (le_max_right x 0) (by norm_num), min_le_right _ _⟩

theorem lookupD_bounds (m : List (String × ℚ)) (k : String) (d : ℚ)
    (hm : ∀ p ∈ m, 0 ≤ p.2 ∧ p.2 ≤ 100) (hd0 : 0 ≤ d) (hd1 : d ≤ 100) :
    0 ≤ lookupD m k d ∧ lookupD m k d ≤ 100 := by
  induction m with
  | nil => simpa [lookupD] using ⟨hd0, hd1⟩
  | cons a l ih =>
    obtain ⟨ka, va⟩ := a
    simp only [lookupD, List.lookup_cons] at *
    cases h : (k == ka) with
    | true => simpa using hm (ka, va) (by simp)
    | false =>
      simp only [h]
      exact ih fun p hp => hm p (by simp [hp])

theorem lookupD_const (m : List (String × ℚ)) (k : String) (c : ℚ)
    (hm : ∀ p ∈ m, p.2 = c) : lookupD m k c = c := by
  induction m with
  | nil => simp [lookupD]
  | cons a l ih =>
    obtain ⟨ka, va⟩ := a
    simp only [lookupD, List.lookup_cons] at *
    cases h : (k == ka) with
    | true => simpa using hm (ka, va) (by simp)
    | false =>
      simp only [h]
      exact ih fun p hp => hm p (by simp [hp])

theorem list_avg_bounds (l : List ℚ) (h : ∀ x ∈ l, 0 ≤ x ∧ x ≤ 100)
    (hne : l ≠ []) :
    0 ≤ l.sum / (l.length : ℚ) ∧ l.sum / (l.length : ℚ) ≤ 100 := by
  have hlen : 0 < (l.length : ℚ) := by
    exact_mod_cast List.length_pos.mpr hne
  constructor
  · exact div_nonneg (List.sum_nonneg fun x hx => (h x hx).1) hlen.le
  · rw [div_le_iff₀ hlen]
    calc l.sum ≤ l.length • (100 : ℚ) :=
          List.sum_le_card_nsmul l 100 fun x hx => (h x hx).2
      _ = 100 * (l.length : ℚ) := by rw [nsmul_eq_mul]; ring

namespace RiskEngine

theorem optValuationScore_bounds (d : ℚ) (hd : 0 < d) (o : Option ℚ) :
    ∀ x ∈ optValuationScore d o, 0 ≤ x ∧ x ≤ 100 := by
  intro x hx
  match o with
  | none => simp [optValuationScore] at hx
  | some r =>
    by_cases hr : r > 0
    · simp only [optValuationScore, if_pos hr, List.mem_singleton] at hx
      subst hx
      exact ⟨le_min (by positivity) (by norm_num), min_le_right _ _⟩
    · simp [optValuationScore, hr] at hx

theorem calculate_valuation_risk_score_bounds (pe pb ps : Option ℚ) :
    0 ≤ calculate_valuation_risk_score pe pb ps ∧
      calculate_valuation_risk_score pe pb ps ≤ 100 := by
  simp only [calculate_valuation_risk_score]
  by_cases h :
      optValuationScore 50 pe ++ optValuationScore 8 pb ++
        optValuationScore 8 ps = []
  · rw [if_pos h]; norm_num
  · rw [if_neg h]
    refine list_avg_bounds _ ?_ h
    intro x hx
    rcases List.mem_append.mp hx with h1 | h3
    · rcases List.mem_append.mp h1 with h1a | h1b
      · exact optValuationScore_bounds 50 (by norm_num) pe x h1a
      · exact optValuationScore_bounds 8 (by norm_num) pb x h1b
    · exact optValuationScore_bounds 8 (by norm_num) ps x h3

end RiskEngine

namespace RecommendationEngine

theorem regime_table_bounds (reg : String) :
    ∀ p ∈ (sector_scores_by_regime.lookup reg).getD neutral_sector_scores,
      0 ≤ p.2 ∧ p.2 ≤ 100 := by
  by_cases h1 : reg = "bull"
  · subst h1
    have e : sector_scores_by_regime.lookup "bull" = some bull_sector_scores := by
      decide
    rw [e]; decide
  by_cases h2 : reg = "bear"
  · subst h2
    have e : sector_scores_by_regime.lookup "bear" = some bear_sector_scores := by
      decide
    rw [e]; decide
  by_cases h3 : reg = "neutral"
  · subst h3
    have e : sector_scores_by_regime.lookup "neutral" =
        some neutral_sector_scores := by decide
    rw [e]; decide
  · have e : sector_scores_by_regime.lookup reg = none := by
      simp [sector_scores_by_regime, List.lookup_cons,
        beq_eq_false_iff_ne.mpr h1, beq_eq_false_iff_ne.mpr h2,
        beq_eq_false_iff_ne.mpr h3]
    rw [e]; decide

theorem calculate_macro_fit_score_bounds (sector reg : String) :
    0 ≤ calculate_macro_fit_score sector reg ∧
      calculate_macro_fit_score sector reg ≤ 100 :=
  lookupD_bounds _ sector 50 (regime_table_bounds reg) (by norm_num) (by norm_num)

theorem macro_neutral_eq_50 (sector : String) :
    calculate_macro_fit_score sector "neutral" = 50 := by
  have e : sector_scores_by_regime.lookup "neutral" =
      some neutral_sector_scores := by decide
  simp only [calculate_macro_fit_score, e, Option.getD_some]
  exact lookupD_const neutral_sector_scores sector 50 (by decide)

theorem bandFor_unknown (lvl : String) (h1 : lvl ≠ "Conservative")
    (h2 : lvl ≠ "Moderate") (h3 : lvl ≠ "Aggressive") :
    bandFor lvl = (0, 100) := by
  simp [bandFor, risk_bands, List.lookup_cons, beq_eq_false_iff_ne.mpr h1,
    beq_eq_false_iff_ne.mpr h2, beq_eq_false_iff_ne.mpr h3]

theorem length_insertByScore (r : StockRecommendation)
    (l : List StockRecommendation) :
    (insertByScore r l).length = l.length + 1 := by
  induction l with
  | nil => rfl
  | cons x xs ih =>
    simp only [insertByScore]
    split_ifs
    · simp
    · simp [ih]

theorem length_sortByScoreDesc (l : List StockRecommendation) :
    (sortByScoreDesc l).length = l.length := by
  induction l with
  | nil => rfl
  | cons x xs ih => simp [sortByScoreDesc, length_insertByScore, ih]

theorem length_assignRanks (i : ℕ) (l : List StockRecommendation) :
    (assignRanks i l).length = l.length := by
  induction l generalizing i with
  | nil => rfl
  | cons x xs ih => simp [assignRanks, ih]

theorem map_rank_assignRanks (i : ℕ) (l : List StockRecommendation) :
    (assignRanks i l).map (fun r => r.rank) = List.range' i l.length := by
  induction l generalizing i with
  | nil => rfl
  | cons x xs ih =>
    show i :: (assignRanks (i + 1) xs).map (fun r => r.rank) =
      i :: List.range' (i + 1) xs.length
    rw [ih]

theorem mem_assignRanks (y : StockRecommendation) (i : ℕ)
    (l : List StockRecommendation) (hy : y ∈ assignRanks i l) :
    ∃ z ∈ l, y.scores = z.scores := by
  induction l generalizing i with
  | nil => simp [assignRanks] at hy
  | cons x xs ih =>
    simp only [assignRanks, List.mem_cons] at hy
    rcases hy with h | h
    · exact ⟨x, by simp, by rw [h]⟩
    · obtain ⟨z, hz, hs⟩ := ih _ h
      exact ⟨z, by simp [hz], hs⟩

theorem perm_insertByScore (r : StockRecommendation)
    (l : List StockRecommendation) : List.Perm (insertByScore r l) (r :: l) := by
  induction l with
  | nil => exact List.Perm.refl _
  | cons x xs ih =>
    simp only [insertByScore]
    split_ifs
    · exact List.Perm.refl _
    · exact List.Perm.trans (List.Perm.cons x ih) (List.Perm.swap r x xs)

theorem perm_sortByScoreDesc (l : List StockRecommendation) :
    List.Perm (sortByScoreDesc l) l := by
  induction l with
  | nil => exact List.Perm.refl _
  | cons x xs ih =>
    exact List.Perm.trans (perm_insertByScore x (sortByScoreDesc xs))
      (List.Perm.cons x ih)

theorem pairwise_insertByScore (r : StockRecommendation)
    (l : List StockRecommendation) (h : l.Pairwise byFinalDesc) :
    (insertByScore r l).Pairwise byFinalDesc := by
  induction l with
  | nil => simp [insertByScore]
  | cons x xs ih =>
    rw [List.pairwise_cons] at h
    obtain ⟨hx, hxs⟩ := h
    simp only [insertByScore]
    split_ifs with hcmp
    · rw [List.pairwise_cons]
      refine ⟨?_, ?_⟩
      · intro y hy
        rcases List.mem_cons.mp hy with rfl | hy
        · exact hcmp
        · exact le_trans (hx y hy) hcmp
      · rw [List.pairwise_cons]
        exact ⟨hx, hxs⟩
    · rw [List.pairwise_cons]
      refine ⟨?_, ih hxs⟩
      intro y hy
      rw [(perm_insertByScore r xs).mem_iff] at hy
      rcases List.mem_cons.mp hy with rfl | hy
      · exact le_of_not_le hcmp
      · exact hx y hy

theorem pairwise_sortByScoreDesc (l : List StockRecommendation) :
    (sortByScoreDesc l).Pairwise byFinalDesc := by
  induction l with
  | nil => simp [sortByScoreDesc]
  | cons x xs ih => exact pairwise_insertByScore x _ ih

theorem pairwise_assignRanks :
    ∀ (l : List StockRecommendation) (i : ℕ), l.Pairwise byFinalDesc →
      (assignRanks i l).Pairwise byFinalDesc
  | [], i, _ => by simp [assignRanks]
  | x :: xs, i, h => by
    rw [List.pairwise_cons] at h
    obtain ⟨hx, hxs⟩ := h
    simp only [assignRanks]
    rw [List.pairwise_cons]
    refine ⟨?_, pairwise_assignRanks xs (i + 1) hxs⟩
    intro y hy
    obtain ⟨z, hz, hs⟩ := mem_assignRanks y (i + 1) xs hy
    show y.scores.final_score ≤ x.scores.final_score
    rw [hs]
    exact hx z hz

theorem filter_insertByScore (q : ℚ) (r : StockRecommendation)
    (l : List StockRecommendation) :
    (insertByScore r l).filter (fun x => decide (x.scores.final_score = q)) =
      (r :: l).filter (fun x => decide (x.scores.final_score = q)) := by
  induction l with
  | nil => rfl
  | cons x xs ih =>
    simp only [insertByScore]
    split_ifs with hcmp
    · rfl
    · have hlt : r.scores.final_score < x.scores.final_score := not_le.mp hcmp
      by_cases hx : x.scores.final_score = q
      · by_cases hr : r.scores.final_score = q
        · exact absurd (hr.trans hx.symm) (ne_of_lt hlt)
        · simp [List.filter_cons, hx, hr, ih]
      · simp [List.filter_cons, hx, ih]

theorem filter_sortByScoreDesc (q : ℚ) (l : List StockRecommendation) :
    (sortByScoreDesc l).filter (fun x => decide (x.scores.final_score = q)) =
      l.filter (fun x => decide (x.scores.final_score = q)) := by
  induction l with
  | nil => rfl
  | cons x xs ih =>
    calc (sortByScoreDesc (x :: xs)).filter
          (fun x => decide (x.scores.final_score = q)) =
        (x :: sortByScoreDesc xs).filter
          (fun x => decide (x.scores.final_score = q)) :=
          filter_insertByScore q x _
      _ = (x :: xs).filter (fun x => decide (x.scores.final_score = q)) := by
          simp [List.filter_cons, ih]

theorem calculate_final_score_eq (a b c d : ℚ) :
    calculate_final_score a b c d =
      clamp100 (0.4 * a + 0.3 * b + 0.2 * c + 0.1 * d) := rfl

theorem align_any_full_tolerance :
    calculate_risk_alignment_score 50 "Any" 100 = 100 := by
  have hband : bandFor "Any" = (0, 100) :=
    bandFor_unknown "Any" (by decide) (by decide) (by decide)
  simp only [calculate_risk_alignment_score, hband]
  norm_num [clamp100, min_def, max_def]

theorem exampleA_final :
    (buildRecommendation "Any" 100 exampleStockA).scores.final_score = 90 := by
  simp only [buildRecommendation, exampleStockA, Option.getD_some,
    Option.getD_none]
  rw [align_any_full_tolerance, macro_neutral_eq_50, calculate_final_score_eq]
  norm_num [clamp100, min_def, max_def]

theorem exampleB_final :
    (buildRecommendation "Any" 100 exampleStockB).scores.final_score = 70 := by
  simp only [buildRecommendation, exampleStockB, Option.getD_some,
    Option.getD_none]
  rw [align_any_full_tolerance, macro_neutral_eq_50, calculate_final_score_eq]
  norm_num [clamp100, min_def, max_def]

theorem exampleC_final :
    (buildRecommendation "Any" 100 exampleStockC).scores.final_score = 95 := by
  simp only [buildRecommendation, exampleStockC, Option.getD_some,
    Option.getD_none]
  rw [align_any_full_tolerance, macro_neutral_eq_50, calculate_final_score_eq]
  norm_num [clamp100, min_def, max_def]

end RecommendationEngine

namespace SignalEngine

theorem aggregate_signals_bounds (signals : List Signal) (ticker : String) :
    0 ≤ aggregate_signals signals ticker ∧
      aggregate_signals signals ticker ≤ 100 := by
  simp only [aggregate_signals]
  split_ifs with h1 h2
  · norm_num
  · norm_num
  · exact clamp100_bounds _

end SignalEngine

/-- C1: for all inputs, every score produced by the three engines — the six
risk component scores, the overall risk score, the strength and confidence
of every emitted signal, the aggregated signal score, the risk-alignment
score, the macro-fit score, and the final recommendation score — lies in
[0, 100]. -/
theorem C1_every_score_in_range :
    (∀ hv vp, 0 ≤ RiskEngine.calculate_volatility_score hv vp ∧
      RiskEngine.calculate_volatility_score hv vp ≤ 100) ∧
    (∀ b, 0 ≤ RiskEngine.calculate_beta_score b ∧
      RiskEngine.calculate_beta_score b ≤ 100) ∧
    (∀ de ic, 0 ≤ RiskEngine.calculate_leverage_score de ic ∧
      RiskEngine.calculate_leverage_score de ic ≤ 100) ∧
    (∀ ev q, 0 ≤ RiskEngine.calculate_earnings_stability_score ev q ∧
      RiskEngine.calculate_earnings_stability_score ev q ≤ 100) ∧
    (∀ sec, 0 ≤ RiskEngine.calculate_sector_risk_score sec ∧
      RiskEngine.calculate_sector_risk_score sec ≤ 100) ∧
    (∀ pe pb ps, 0 ≤ RiskEngine.calculate_valuation_risk_score pe pb ps ∧
      RiskEngine.calculate_valuation_risk_score pe pb ps ≤ 100) ∧
    (∀ c, 0 ≤ RiskEngine.calculate_overall_risk c ∧
      RiskEngine.calculate_overall_risk c ≤ 100) ∧
    (∀ t a e ts now, SignalEngine.signalInRange
      (SignalEngine.detect_earnings_surprise t a e ts now)) ∧
    (∀ t ch n ts now, SignalEngine.signalInRange
      (SignalEngine.detect_institutional_buying t ch n ts now)) ∧
    (∀ t bv sv n ts now, SignalEngine.signalInRange
      (SignalEngine.detect_insider_buying t bv sv n ts now)) ∧
    (∀ t cs bs mv ts now, SignalEngine.signalInRange
      (SignalEngine.detect_sentiment_spike t cs bs mv ts now)) ∧
    (∀ sigs t, 0 ≤ SignalEngine.aggregate_signals sigs t ∧
      SignalEngine.aggregate_signals sigs t ≤ 100) ∧
    (∀ r lvl tol, 0 ≤ RecommendationEngine.calculate_risk_alignment_score r lvl tol ∧
      RecommendationEngine.calculate_risk_alignment_score r lvl tol ≤ 100) ∧
    (∀ sec reg, 0 ≤ RecommendationEngine.calculate_macro_fit_score sec reg ∧
      RecommendationEngine.calculate_macro_fit_score sec reg ≤ 100) ∧
    (∀ r s ra mf, 0 ≤ RecommendationEngine.calculate_final_score r s ra mf ∧
      RecommendationEngine.calculate_final_score r s ra mf ≤ 100) := by
  refine ⟨fun hv vp => clamp100_bounds _, ?_, fun de ic => clamp100_bounds _,
    fun ev q => clamp100_bounds _,
    fun sec => lookupD_bounds _ sec 50 (by decide) (by norm_num) (by norm_num),
    RiskEngine.calculate_valuation_risk_score_bounds,
    fun c => clamp100_bounds _, ?_, ?_, ?_, ?_,
    SignalEngine.aggregate_signals_bounds,
    fun r lvl tol => clamp100_bounds _,
    RecommendationEngine.calculate_macro_fit_score_bounds,
    fun r s ra mf => clamp100_bounds _⟩
  · -- beta score
    intro b
    by_cases hb : b < 0
    · simp only [RiskEngine.calculate_beta_score, if_pos hb]
      have hneg : b * 25 < 0 := mul_neg_of_neg_of_pos hb (by norm_num)
      exact ⟨le_max_left 0 _, max_le (by norm_num) (by linarith)⟩
    · simp only [RiskEngine.calculate_beta_score, if_neg hb]
      exact clamp100_bounds _
  · -- earnings surprise detector
    intro t a e ts now
    by_cases h1 : e = 0
    · simp [SignalEngine.detect_earnings_surprise, h1, SignalEngine.signalInRange]
    · by_cases h2 : |(a - e) / |e| * 100| < 5
      · simp [SignalEngine.detect_earnings_surprise, h1, h2,
          SignalEngine.signalInRange]
      · simp only [SignalEngine.detect_earnings_surprise, if_neg h1, if_neg h2,
          SignalEngine.signalInRange, Option.elim_some]
        refine ⟨⟨le_min (by positivity) (by norm_num), min_le_right _ _⟩,
          by norm_num⟩
  · -- institutional buying detector
    intro t ch n ts now
    by_cases h : ch < 2 ∨ n < 3
    · simp [SignalEngine.detect_institutional_buying, h,
        SignalEngine.signalInRange]
    · have h' := h
      push_neg at h'
      obtain ⟨h1, h2⟩ := h'
      have h2q : (3 : ℚ) ≤ (n : ℚ) := by exact_mod_cast h2
      simp only [SignalEngine.detect_institutional_buying, if_neg h,
        SignalEngine.signalInRange, Option.elim_some]
      have m1 := min_le_right (ch * 10) 50
      have m2 := min_le_right ((n : ℚ) * 5) 50
      have m3 := min_le_right (60 + (n : ℚ) * 5) 95
      refine ⟨⟨add_nonneg (le_min (by linarith) (by norm_num))
          (le_min (by linarith) (by norm_num)), by linarith⟩,
        ⟨le_min (by linarith) (by norm_num), by linarith⟩⟩
  · -- insider buying detector
    intro t bv sv n ts now
    by_cases h : bv - sv ≤ 0 ∨ n < 2
    · have hle : bv ≤ sv ∨ n < 2 := by rwa [sub_nonpos] at h
      simp [SignalEngine.detect_insider_buying, hle, SignalEngine.signalInRange]
    · have h' := h
      push_neg at h'
      obtain ⟨h1, h2⟩ := h'
      have h2q : (2 : ℚ) ≤ (n : ℚ) := by exact_mod_cast h2
      simp only [SignalEngine.detect_insider_buying, if_neg h,
        SignalEngine.signalInRange, Option.elim_some]
      have hB : (0 : ℚ) ≤ if sv > 0 then bv / sv else 10 := by
        split_ifs with hs
        · exact div_nonneg (by linarith) hs.le
        · norm_num
      have m1 := min_le_right ((if sv > 0 then bv / sv else 10) * 20) 60
      have m2 := min_le_right ((n : ℚ) * 10) 40
      refine ⟨⟨add_nonneg (le_min (by positivity) (by norm_num))
          (le_min (by linarith) (by norm_num)), by linarith⟩, by norm_num⟩
  · -- sentiment spike detector
    intro t cs bs mv ts now
    by_cases h : |cs - bs| < 0.2 ∨ mv < 100
    · simp [SignalEngine.detect_sentiment_spike, h, SignalEngine.signalInRange]
    · have h' := h
      push_neg at h'
      obtain ⟨h1, h2⟩ := h'
      have h2q : (100 : ℚ) ≤ (mv : ℚ) := by exact_mod_cast h2
      simp only [SignalEngine.detect_sentiment_spike, if_neg h,
        SignalEngine.signalInRange, Option.elim_some]
      have m1 := min_le_right (|cs - bs| * 100) 70
      have m2 := min_le_right ((mv : ℚ) / 100) 30
      refine ⟨⟨add_nonneg (le_min (by positivity) (by norm_num))
          (le_min (by linarith) (by norm_num)), by linarith⟩, by norm_num⟩

/-- C2 counterexample: two invocations of detect_earnings_surprise with
equal arguments but no supplied timestamp return different values when the
wall clock differs, because the source fills the timestamp field with
datetime.utcnow(). -/
theorem C2_counterexample :
    SignalEngine.detect_earnings_surprise "AAPL" 1.15 1 none 0 ≠
      SignalEngine.detect_earnings_surprise "AAPL" 1.15 1 none 1 := by
  have habs : |((1.15 : ℚ) - 1) / |(1 : ℚ)| * 100| = 15 := by
    rw [abs_one, show ((1.15 : ℚ) - 1) / 1 * 100 = 15 from by norm_num,
      abs_of_nonneg (show (0 : ℚ) ≤ 15 from by norm_num)]
  have e : ∀ now : ℤ,
      (SignalEngine.detect_earnings_surprise "AAPL" 1.15 1 none now).map
        (fun s => s.timestamp) = some now := by
    intro now
    simp only [SignalEngine.detect_earnings_surprise]
    rw [if_neg (by norm_num : ¬ (1 : ℚ) = 0), if_neg (by rw [habs]; norm_num)]
    rfl
  intro h
  have h2 := congrArg (Option.map fun s => s.timestamp) h
  rw [e 0, e 1] at h2
  exact absurd (Option.some.inj h2) (by decide)

/-- C2 (amended): every engine operation is a deterministic function of its
arguments and the wall clock; when a timestamp is supplied each detector is
independent of the clock, and in every case the clock can only influence
the timestamp field of the emitted signal. -/
theorem C2_deterministic_up_to_clock :
    (∀ t a e ts n1 n2, SignalEngine.detect_earnings_surprise t a e (some ts) n1 =
      SignalEngine.detect_earnings_surprise t a e (some ts) n2) ∧
    (∀ t ch n ts n1 n2, SignalEngine.detect_institutional_buying t ch n (some ts) n1 =
      SignalEngine.detect_institutional_buying t ch n (some ts) n2) ∧
    (∀ t bv sv n ts n1 n2, SignalEngine.detect_insider_buying t bv sv n (some ts) n1 =
      SignalEngine.detect_insider_buying t bv sv n (some ts) n2) ∧
    (∀ t cs bs mv ts n1 n2, SignalEngine.detect_sentiment_spike t cs bs mv (some ts) n1 =
      SignalEngine.detect_sentiment_spike t cs bs mv (some ts) n2) ∧
    (∀ t a e ts n1 n2,
      (SignalEngine.detect_earnings_surprise t a e ts n1).map SignalEngine.stripTime =
      (SignalEngine.detect_earnings_surprise t a e ts n2).map SignalEngine.stripTime) ∧
    (∀ t ch n ts n1 n2,
      (SignalEngine.detect_institutional_buying t ch n ts n1).map SignalEngine.stripTime =
      (SignalEngine.detect_institutional_buying t ch n ts n2).map SignalEngine.stripTime) ∧
    (∀ t bv sv n ts n1 n2,
      (SignalEngine.detect_insider_buying t bv sv n ts n1).map SignalEngine.stripTime =
      (SignalEngine.detect_insider_buying t bv sv n ts n2).map SignalEngine.stripTime) ∧
    (∀ t cs bs mv ts n1 n2,
      (SignalEngine.detect_sentiment_spike t cs bs mv ts n1).map SignalEngine.stripTime =
      (SignalEngine.detect_sentiment_spike t cs bs mv ts n2).map SignalEngine.stripTime) := by
  refine ⟨?_, ?_, ?_, ?_, ?_, ?_, ?_, ?_⟩
  · intro t a e ts n1 n2
    simp [SignalEngine.detect_earnings_surprise]
  · intro t ch n ts n1 n2
    simp [SignalEngine.detect_institutional_buying]
  · intro t bv sv n ts n1 n2
    simp [SignalEngine.detect_insider_buying]
  · intro t cs bs mv ts n1 n2
    simp [SignalEngine.detect_sentiment_spike]
  · intro t a e ts n1 n2
    simp only [SignalEngine.detect_earnings_surprise]
    split_ifs <;> simp [SignalEngine.stripTime]
  · intro t ch n ts n1 n2
    simp only [SignalEngine.detect_institutional_buying]
    split_ifs <;> simp [SignalEngine.stripTime]
  · intro t bv sv n ts n1 n2
    simp only [SignalEngine.detect_insider_buying]
    split_ifs <;> simp [SignalEngine.stripTime]
  · intro t cs bs mv ts n1 n2
    simp only [SignalEngine.detect_sentiment_spike]
    split_ifs <;> simp [SignalEngine.stripTime]

/-- C3: classify_risk_level and get_risk_band agree on the same band for
every real risk score: scores up to 33.33 give Conservative and "0-33",
scores in (33.33, 66.67] give Moderate and "34-66", larger scores give
Aggressive and "67-100"; in particular 33.33 is Conservative and 33.34 is
Moderate. -/
theorem C3_classification_band_agreement :
    (∀ s : ℚ, RiskEngine.get_risk_band s =
      RiskEngine.bandOfLevel (RiskEngine.classify_risk_level s)) ∧
    (∀ s : ℚ,
      (s ≤ 33.33 → RiskEngine.classify_risk_level s = .Conservative ∧
        RiskEngine.get_risk_band s = "0-33") ∧
      (33.33 < s → s ≤ 66.67 → RiskEngine.classify_risk_level s = .Moderate ∧
        RiskEngine.get_risk_band s = "34-66") ∧
      (66.67 < s → RiskEngine.classify_risk_level s = .Aggressive ∧
        RiskEngine.get_risk_band s = "67-100")) ∧
    (RiskEngine.classify_risk_level 33.33 = .Conservative ∧
      RiskEngine.get_risk_band 33.33 = "0-33") ∧
    (RiskEngine.classify_risk_level 33.34 = .Moderate ∧
      RiskEngine.get_risk_band 33.34 = "34-66") := by
  have hC : RiskEngine.CONSERVATIVE_THRESHOLD = 33.33 := rfl
  have hM : RiskEngine.MODERATE_THRESHOLD = 66.67 := rfl
  refine ⟨?_, ?_, ?_, ?_⟩
  · intro s
    simp only [RiskEngine.get_risk_band, RiskEngine.classify_risk_level]
    split_ifs <;> simp [RiskEngine.bandOfLevel]
  · intro s
    refine ⟨fun h => ?_, fun h1 h2 => ?_, fun h => ?_⟩
    · have hc : s ≤ RiskEngine.CONSERVATIVE_THRESHOLD := by rw [hC]; exact h
      simp only [RiskEngine.classify_risk_level, RiskEngine.get_risk_band,
        if_pos hc]
      exact ⟨trivial, trivial⟩
    · have hc : ¬ s ≤ RiskEngine.CONSERVATIVE_THRESHOLD := by
        rw [hC]; exact not_le.mpr h1
      have hm : s ≤ RiskEngine.MODERATE_THRESHOLD := by rw [hM]; exact h2
      simp only [RiskEngine.classify_risk_level, RiskEngine.get_risk_band,
        if_neg hc, if_pos hm]
      exact ⟨trivial, trivial⟩
    · have hc : ¬ s ≤ RiskEngine.CONSERVATIVE_THRESHOLD := by
        rw [hC, not_le]
        calc (33.33 : ℚ) < 66.67 := by norm_num
          _ < s := h
      have hm : ¬ s ≤ RiskEngine.MODERATE_THRESHOLD := by
        rw [hM]; exact not_le.mpr h
      simp only [RiskEngine.classify_risk_level, RiskEngine.get_risk_band,
        if_neg hc, if_neg hm]
      exact ⟨trivial, trivial⟩
  · have hc : (33.33 : ℚ) ≤ RiskEngine.CONSERVATIVE_THRESHOLD := by
      rw [hC]
    simp only [RiskEngine.classify_risk_level, RiskEngine.get_risk_band,
      if_pos hc]
    exact ⟨trivial, trivial⟩
  · have hc : ¬ (33.34 : ℚ) ≤ RiskEngine.CONSERVATIVE_THRESHOLD := by
      rw [hC]; norm_num
    have hm : (33.34 : ℚ) ≤ RiskEngine.MODERATE_THRESHOLD := by
      rw [hM]; norm_num
    simp only [RiskEngine.classify_risk_level, RiskEngine.get_risk_band,
      if_neg hc, if_pos hm]
    exact ⟨trivial, trivial⟩

/-- C3 witness: the trichotomy evaluated at 20, 50 and 80. -/
theorem C3_witness :
    (RiskEngine.classify_risk_level 20 = .Conservative ∧
      RiskEngine.get_risk_band 20 = "0-33") ∧
    (RiskEngine.classify_risk_level 50 = .Moderate ∧
      RiskEngine.get_risk_band 50 = "34-66") ∧
    (RiskEngine.classify_risk_level 80 = .Aggressive ∧
      RiskEngine.get_risk_band 80 = "67-100") :=
  ⟨(C3_classification_band_agreement.2.1 20).1 (by norm_num),
   (C3_classification_band_agreement.2.1 50).2.1 (by norm_num) (by norm_num),
   (C3_classification_band_agreement.2.1 80).2.2 (by norm_num)⟩

/-- C4: aggregate_signals returns exactly 50 on the empty list and whenever
the total confidence weight is zero; on a non-empty list with positive
total weight it returns the confidence-weighted mean of strengths, clamped
to [0, 100]. -/
theorem C4_aggregate_signals_spec :
    (∀ t, SignalEngine.aggregate_signals [] t = 50) ∧
    (∀ sigs t, (sigs.map (fun s => s.confidence / 100)).sum = 0 →
      SignalEngine.aggregate_signals sigs t = 50) ∧
    (∀ sigs t, sigs ≠ [] →
      0 < (sigs.map (fun s => s.confidence / 100)).sum →
      SignalEngine.aggregate_signals sigs t =
        clamp100 ((sigs.map (fun s => s.strength * (s.confidence / 100))).sum /
          (sigs.map (fun s => s.confidence / 100)).sum)) := by
  refine ⟨fun t => rfl, ?_, ?_⟩
  · intro sigs t h
    simp only [SignalEngine.aggregate_signals]
    by_cases h1 : sigs = []
    · rw [if_pos h1]
    · rw [if_neg h1, if_pos h]
  · intro sigs t hne hpos
    simp only [SignalEngine.aggregate_signals]
    rw [if_neg hne, if_neg (ne_of_gt hpos)]

/-- C4 witness: a singleton list with strength 80 and confidence 50 has
total weight 1/2 and aggregates to the clamped weighted mean, which is 80. -/
theorem C4_witness :
    SignalEngine.aggregate_signals [SignalEngine.sampleSignal] "A" =
      clamp100 ((([SignalEngine.sampleSignal]).map
        (fun s => s.strength * (s.confidence / 100))).sum /
        (([SignalEngine.sampleSignal]).map (fun s => s.confidence / 100)).sum) ∧
    SignalEngine.aggregate_signals [SignalEngine.sampleSignal] "A" = 80 := by
  have h := C4_aggregate_signals_spec.2.2 [SignalEngine.sampleSignal] "A"
    (by simp) (by norm_num [SignalEngine.sampleSignal])
  refine ⟨h, ?_⟩
  rw [h]
  have hv : ((List.map (fun s => s.strength * (s.confidence / 100))
      [SignalEngine.sampleSignal]).sum /
      (List.map (fun s => s.confidence / 100) [SignalEngine.sampleSignal]).sum)
      = 80 := by
    norm_num [SignalEngine.sampleSignal]
  rw [hv, clamp100, max_eq_left (show (0 : ℚ) ≤ 80 from by norm_num),
    min_eq_left (show (80 : ℚ) ≤ 100 from by norm_num)]

/-- C5: rank_recommendations stably sorts the candidates in descending order
of final score, keeps only the first top_n entries of the sorted list, and
gives them ranks 1..N; the underlying sort is a permutation, is descending,
and preserves the relative input order of equal final scores; on the
concrete candidates with final scores [90, 70, 95] and top_n = 2 the output
is exactly rank 1 with score 95 and rank 2 with score 90. -/
theorem C5_rank_recommendations_spec :
    (∀ (stocks : List RecommendationEngine.StockData) lvl tol n,
      (RecommendationEngine.rank_recommendations stocks lvl tol n).length =
        min n stocks.length) ∧
    (∀ (stocks : List RecommendationEngine.StockData) lvl tol n,
      (RecommendationEngine.rank_recommendations stocks lvl tol n).Pairwise
        RecommendationEngine.byFinalDesc) ∧
    (∀ (stocks : List RecommendationEngine.StockData) lvl tol n,
      (RecommendationEngine.rank_recommendations stocks lvl tol n).map
          (fun r => r.rank) =
        List.range' 1
          (RecommendationEngine.rank_recommendations stocks lvl tol n).length) ∧
    (∀ l : List RecommendationEngine.StockRecommendation,
      List.Perm (RecommendationEngine.sortByScoreDesc l) l) ∧
    (∀ l : List RecommendationEngine.StockRecommendation,
      (RecommendationEngine.sortByScoreDesc l).Pairwise
        RecommendationEngine.byFinalDesc) ∧
    (∀ (l : List RecommendationEngine.StockRecommendation) (q : ℚ),
      (RecommendationEngine.sortByScoreDesc l).filter
          (fun r => decide (r.scores.final_score = q)) =
        l.filter (fun r => decide (r.scores.final_score = q))) ∧
    ((RecommendationEngine.rank_recommendations
        [RecommendationEngine.exampleStockA, RecommendationEngine.exampleStockB,
         RecommendationEngine.exampleStockC] "Any" 100 2).map
        (fun r => (r.ticker, r.rank, r.scores.final_score)) =
      [("C", 1, 95), ("A", 2, 90)]) := by
  refine ⟨?_, ?_, ?_, RecommendationEngine.perm_sortByScoreDesc,
    RecommendationEngine.pairwise_sortByScoreDesc,
    fun l q => RecommendationEngine.filter_sortByScoreDesc q l, ?_⟩
  · intro stocks lvl tol n
    simp [RecommendationEngine.rank_recommendations,
      RecommendationEngine.length_assignRanks, List.length_take,
      RecommendationEngine.length_sortByScoreDesc, List.length_map]
  · intro stocks lvl tol n
    exact RecommendationEngine.pairwise_assignRanks _ 1
      (List.Pairwise.sublist (List.take_sublist _ _)
        (RecommendationEngine.pairwise_sortByScoreDesc _))
  · intro stocks lvl tol n
    simp only [RecommendationEngine.rank_recommendations]
    rw [RecommendationEngine.map_rank_assignRanks,
      RecommendationEngine.length_assignRanks]
  · simp only [RecommendationEngine.rank_recommendations, List.map_cons,
      List.map_nil, RecommendationEngine.sortByScoreDesc,
      RecommendationEngine.insertByScore, RecommendationEngine.exampleA_final,
      RecommendationEngine.exampleB_final, RecommendationEngine.exampleC_final]
    norm_num [List.take, RecommendationEngine.assignRanks,
      RecommendationEngine.exampleA_final, RecommendationEngine.exampleB_final,
      RecommendationEngine.exampleC_final, RecommendationEngine.buildRecommendation,
      RecommendationEngine.exampleStockA, RecommendationEngine.exampleStockC]
    refine ⟨?_, ?_⟩ <;>
      rw [RecommendationEngine.align_any_full_tolerance,
        RecommendationEngine.macro_neutral_eq_50,
        RecommendationEngine.calculate_final_score_eq] <;>
      norm_num [clamp100, min_def, max_def]

/-- C6 counterexample: with the unrecognized risk level "Balanced" the
filter still applies the default 0-100 band, so a candidate whose risk
score is 150 is dropped, not retained. -/
theorem C6_counterexample :
    RecommendationEngine.filter_by_risk_band
        [RecommendationEngine.overStock] "Balanced" = [] ∧
      RecommendationEngine.filter_by_risk_band
        [RecommendationEngine.overStock] "Balanced" ≠
        [RecommendationEngine.overStock] := by
  have hband : RecommendationEngine.bandFor "Balanced" = (0, 100) :=
    RecommendationEngine.bandFor_unknown "Balanced" (by decide) (by decide)
      (by decide)
  have h : RecommendationEngine.filter_by_risk_band
      [RecommendationEngine.overStock] "Balanced" = [] := by
    simp only [RecommendationEngine.filter_by_risk_band, hband]
    norm_num [List.filter, RecommendationEngine.overStock]
  exact ⟨h, by rw [h]; simp⟩

/-- C6 (amended): filter_by_risk_band with level "Moderate" retains exactly
the candidates with (effective) risk score in [34, 66]; an unrecognized
level applies the default 0-100 band, hence retains exactly the candidates
with risk score in [0, 100] — which is all of them whenever every risk
score is in range. -/
theorem C6_filter_by_risk_band_spec :
    (∀ stocks, RecommendationEngine.filter_by_risk_band stocks "Moderate" =
      stocks.filter (fun s => decide (34 ≤ s.risk_score.getD 50 ∧
        s.risk_score.getD 50 ≤ 66))) ∧
    (∀ stocks lvl, lvl ≠ "Conservative" → lvl ≠ "Moderate" →
      lvl ≠ "Aggressive" →
      RecommendationEngine.filter_by_risk_band stocks lvl =
        stocks.filter (fun s => decide (0 ≤ s.risk_score.getD 50 ∧
          s.risk_score.getD 50 ≤ 100))) ∧
    (∀ stocks lvl, lvl ≠ "Conservative" → lvl ≠ "Moderate" →
      lvl ≠ "Aggressive" →
      (∀ s ∈ stocks, 0 ≤ s.risk_score.getD 50 ∧ s.risk_score.getD 50 ≤ 100) →
      RecommendationEngine.filter_by_risk_band stocks lvl = stocks) := by
  have hmod : RecommendationEngine.bandFor "Moderate" = (34, 66) := by decide
  refine ⟨?_, ?_, ?_⟩
  · intro stocks
    simp only [RecommendationEngine.filter_by_risk_band, hmod]
  · intro stocks lvl h1 h2 h3
    simp only [RecommendationEngine.filter_by_risk_band,
      RecommendationEngine.bandFor_unknown lvl h1 h2 h3]
  · intro stocks lvl h1 h2 h3 hin
    simp only [RecommendationEngine.filter_by_risk_band,
      RecommendationEngine.bandFor_unknown lvl h1 h2 h3]
    rw [List.filter_eq_self]
    intro a ha
    rw [decide_eq_true_eq]
    exact hin a ha

/-- C6 witness: an unrecognized level keeps a candidate whose risk score 50
is in range. -/
theorem C6_witness :
    RecommendationEngine.filter_by_risk_band
      [RecommendationEngine.midStock] "Balanced" =
      [RecommendationEngine.midStock] :=
  C6_filter_by_risk_band_spec.2.2 [RecommendationEngine.midStock] "Balanced"
    (by decide) (by decide) (by decide)
    (by intro s hs; rw [List.mem_singleton.mp hs]; decide)

/-- C7: detect_earnings_surprise returns no signal when the estimate is 0
or the absolute surprise percentage is below 5; otherwise it emits a signal
with strength min(|surprise|*2, 100) and confidence exactly 95; on
actual 1.15 versus estimate 1.00 the surprise is 15 percent and the signal
has strength 30 and confidence 95. -/
theorem C7_earnings_surprise_spec :
    (∀ t (a e : ℚ) ts now, e = 0 →
      SignalEngine.detect_earnings_surprise t a e ts now = none) ∧
    (∀ t (a e : ℚ) ts now, e ≠ 0 → |(a - e) / |e| * 100| < 5 →
      SignalEngine.detect_earnings_surprise t a e ts now = none) ∧
    (∀ t (a e : ℚ) ts now, e ≠ 0 → 5 ≤ |(a - e) / |e| * 100| →
      (SignalEngine.detect_earnings_surprise t a e ts now).map
          (fun s => (s.strength, s.confidence)) =
        some (min (|(a - e) / |e| * 100| * 2) 100, 95)) ∧
    ((SignalEngine.detect_earnings_surprise "AAPL" 1.15 1 (some 0) 0).map
        (fun s => (s.strength, s.confidence)) = some (30, 95)) := by
  refine ⟨?_, ?_, ?_, ?_⟩
  · intro t a e ts now h
    simp [SignalEngine.detect_earnings_surprise, h]
  · intro t a e ts now h1 h2
    simp only [SignalEngine.detect_earnings_surprise]
    rw [if_neg h1, if_pos h2]
  · intro t a e ts now h1 h2
    simp only [SignalEngine.detect_earnings_surprise]
    rw [if_neg h1, if_neg (not_lt.mpr h2)]
    rfl
  · have habs : |((1.15 : ℚ) - 1) / |(1 : ℚ)| * 100| = 15 := by
      rw [abs_one, show ((1.15 : ℚ) - 1) / 1 * 100 = 15 from by norm_num,
        abs_of_nonneg (show (0 : ℚ) ≤ 15 from by norm_num)]
    simp only [SignalEngine.detect_earnings_surprise]
    rw [if_neg (by norm_num : ¬ (1 : ℚ) = 0), if_neg (by rw [habs]; norm_num)]
    rw [habs]
    norm_num [min_def]

/-- C7 witness: a zero estimate yields no signal, a 2 percent surprise is
below the 5 percent trigger, and a 100 percent surprise emits a signal with
the stated strength and confidence. -/
theorem C7_witness :
    SignalEngine.detect_earnings_surprise "T" 1 0 none 0 = none ∧
    SignalEngine.detect_earnings_surprise "T" 1.02 1 none 0 = none ∧
    (SignalEngine.detect_earnings_surprise "T" 2 1 none 0).map
        (fun s => (s.strength, s.confidence)) =
      some (min (|((2 : ℚ) - 1) / |(1 : ℚ)| * 100| * 2) 100, 95) :=
  ⟨C7_earnings_surprise_spec.1 "T" 1 0 none 0 rfl,
   C7_earnings_surprise_spec.2.1 "T" 1.02 1 none 0 (by norm_num)
     (by rw [show ((1.02 : ℚ) - 1) / |(1 : ℚ)| * 100 = 2 from by
           rw [abs_one]; norm_num,
         abs_of_nonneg (show (0 : ℚ) ≤ 2 from by norm_num)]
         norm_num),
   C7_earnings_surprise_spec.2.2.1 "T" 2 1 none 0 (by norm_num)
     (by rw [show ((2 : ℚ) - 1) / |(1 : ℚ)| * 100 = 100 from by
           rw [abs_one]; norm_num,
         abs_of_nonneg (show (0 : ℚ) ≤ 100 from by norm_num)]
         norm_num)⟩

/-- C8 counterexample: the ratio 0 is supplied, so the claim demands the
average min(0/50*100, 100) = 0, yet the source skips non-positive ratios
and returns the no-data default 50. -/
theorem C8_counterexample :
    RiskEngine.calculate_valuation_risk_score (some 0) none none = 50 ∧
    RiskEngine.valuation_risk_score_claim (some 0) none none = 0 ∧
    RiskEngine.calculate_valuation_risk_score (some 0) none none ≠
      RiskEngine.valuation_risk_score_claim (some 0) none none := by
  have h1 : RiskEngine.calculate_valuation_risk_score (some 0) none none = 50 := by
    norm_num [RiskEngine.calculate_valuation_risk_score,
      RiskEngine.optValuationScore]
  have h2 : RiskEngine.valuation_risk_score_claim (some 0) none none = 0 := by
    norm_num [RiskEngine.valuation_risk_score_claim,
      RiskEngine.optValuationScoreClaim, min_def]
  exact ⟨h1, h2, by rw [h1, h2]; norm_num⟩

/-- C8 (amended): the valuation risk score is the average of the
scaled-and-clamped scores of exactly the supplied positive ratios, and 50
when no supplied ratio is positive. -/
theorem C8_valuation_positive_only (pe pb ps : Option ℚ) :
    RiskEngine.calculate_valuation_risk_score pe pb ps =
      (if RiskEngine.suppliedPositiveScores pe pb ps = [] then 50
       else (RiskEngine.suppliedPositiveScores pe pb ps).sum /
         ((RiskEngine.suppliedPositiveScores pe pb ps).length : ℚ)) := by
  have key : RiskEngine.optValuationScore 50 pe ++
      RiskEngine.optValuationScore 8 pb ++ RiskEngine.optValuationScore 8 ps =
      RiskEngine.suppliedPositiveScores pe pb ps := by
    rcases pe with _ | a <;> rcases pb with _ | b <;> rcases ps with _ | c <;>
      simp only [RiskEngine.optValuationScore, RiskEngine.suppliedPositiveScores,
        List.filter_cons, List.filter_nil, List.map_cons, List.map_nil,
        Option.getD_some, Option.getD_none, List.append_nil, List.nil_append,
        decide_eq_true_eq] <;>
      norm_num <;>
      split_ifs <;>
      simp_all
  simp only [RiskEngine.calculate_valuation_risk_score, key]

/-- C9: rank_recommendations never passes a market regime, so the neutral
table is used and the macro-fit score of every produced recommendation is
exactly 50; consequently every final score equals the clamp of
0.4*research + 0.3*signal + 0.2*risk_alignment + 5. -/
theorem C9_macro_fit_always_50 :
    (∀ sector, RecommendationEngine.calculate_macro_fit_score sector "neutral"
      = 50) ∧
    (∀ (stocks : List RecommendationEngine.StockData) lvl tol n,
      (RecommendationEngine.rank_recommendations stocks lvl tol n).Forall
        (fun r => r.scores.macro_fit_score = 50 ∧
          r.scores.final_score = clamp100 (0.4 * r.scores.research_score +
            0.3 * r.scores.signal_score +
            0.2 * r.scores.risk_alignment_score + 5))) := by
  refine ⟨RecommendationEngine.macro_neutral_eq_50, ?_⟩
  intro stocks lvl tol n
  rw [List.forall_iff_forall_mem]
  intro r hr
  simp only [RecommendationEngine.rank_recommendations] at hr
  obtain ⟨z, hz, hs⟩ := RecommendationEngine.mem_assignRanks r 1 _ hr
  have hz2 := List.take_subset n _ hz
  have hz3 := (RecommendationEngine.perm_sortByScoreDesc _).subset hz2
  obtain ⟨st, hst, hbuild⟩ := List.mem_map.mp hz3
  rw [hs, ← hbuild]
  simp only [RecommendationEngine.buildRecommendation]
  refine ⟨RecommendationEngine.macro_neutral_eq_50 _, ?_⟩
  rw [RecommendationEngine.macro_neutral_eq_50,
    RecommendationEngine.calculate_final_score_eq]
  norm_num

/-- C10: scores in the gaps (33, 34) and (66, 67) — such as 33.5 — are
classified and banded consistently by the risk engine, yet the filter of
the recommendation engine excludes them for all three recognized user risk
levels, because its integer bands leave those gaps uncovered. -/
theorem C10_classifier_filter_gap :
    (∀ (stocks : List RecommendationEngine.StockData)
        (st : RecommendationEngine.StockData) (s : ℚ),
      st.risk_score = some s →
      (33 < s ∧ s < 34) ∨ (66 < s ∧ s < 67) →
      st ∉ RecommendationEngine.filter_by_risk_band stocks "Conservative" ∧
      st ∉ RecommendationEngine.filter_by_risk_band stocks "Moderate" ∧
      st ∉ RecommendationEngine.filter_by_risk_band stocks "Aggressive") ∧
    (∀ s : ℚ, (33 < s ∧ s < 34) ∨ (66 < s ∧ s < 67) →
      RiskEngine.get_risk_band s =
        RiskEngine.bandOfLevel (RiskEngine.classify_risk_level s)) ∧
    (RiskEngine.classify_risk_level 33.5 = .Moderate ∧
      RiskEngine.get_risk_band 33.5 = "34-66") := by
  refine ⟨?_, ?_, ?_⟩
  · intro stocks st s hsc hgap
    have hb1 : RecommendationEngine.bandFor "Conservative" = (0, 33) := by
      decide
    have hb2 : RecommendationEngine.bandFor "Moderate" = (34, 66) := by decide
    have hb3 : RecommendationEngine.bandFor "Aggressive" = (67, 100) := by
      decide
    refine ⟨?_, ?_, ?_⟩
    · intro hmem
      simp only [RecommendationEngine.filter_by_risk_band, hb1] at hmem
      have h := (List.mem_filter.mp hmem).2
      simp only [hsc, Option.getD_some, decide_eq_true_eq] at h
      rcases hgap with ⟨hg, _⟩ | ⟨hg, _⟩ <;> linarith [h.2]
    · intro hmem
      simp only [RecommendationEngine.filter_by_risk_band, hb2] at hmem
      have h := (List.mem_filter.mp hmem).2
      simp only [hsc, Option.getD_some, decide_eq_true_eq] at h
      rcases hgap with ⟨_, hg⟩ | ⟨hg, _⟩ <;> linarith [h.1, h.2]
    · intro hmem
      simp only [RecommendationEngine.filter_by_risk_band, hb3] at hmem
      have h := (List.mem_filter.mp hmem).2
      simp only [hsc, Option.getD_some, decide_eq_true_eq] at h
      rcases hgap with ⟨_, hg⟩ | ⟨_, hg⟩ <;> linarith [h.1]
  · intro s _
    simp only [RiskEngine.get_risk_band, RiskEngine.classify_risk_level]
    split_ifs <;> simp [RiskEngine.bandOfLevel]
  · have hc : ¬ (33.5 : ℚ) ≤ RiskEngine.CONSERVATIVE_THRESHOLD := by
      rw [show RiskEngine.CONSERVATIVE_THRESHOLD = 33.33 from rfl]
      norm_num
    have hm : (33.5 : ℚ) ≤ RiskEngine.MODERATE_THRESHOLD := by
      rw [show RiskEngine.MODERATE_THRESHOLD = 66.67 from rfl]
      norm_num
    simp only [RiskEngine.classify_risk_level, RiskEngine.get_risk_band,
      if_neg hc, if_pos hm]
    exact ⟨trivial, trivial⟩

/-- C10 witness: the gap score 33.5 is excluded by the filter for all three
recognized user risk levels. -/
theorem C10_witness :
    RecommendationEngine.gapStock ∉
      RecommendationEngine.filter_by_risk_band
        [RecommendationEngine.gapStock] "Conservative" ∧
    RecommendationEngine.gapStock ∉
      RecommendationEngine.filter_by_risk_band
        [RecommendationEngine.gapStock] "Moderate" ∧
    RecommendationEngine.gapStock ∉
      RecommendationEngine.filter_by_risk_band
        [RecommendationEngine.gapStock] "Aggressive" :=
  C10_classifier_filter_gap.1 [RecommendationEngine.gapStock]
    RecommendationEngine.gapStock 33.5 rfl
    (Or.inl ⟨by norm_num, by norm_num⟩)

end Quantara
